import Mathlib

/-!
Shallow embedding of the Live Overlay Synchronization Engine of the
element-highlighter userscript (the `SelectionManager` and the relevant
parts of `Highlighter` in `element-highlighter.user.js`).

Modelling conventions:
* DOM elements are identified by `Nat` references; reference identity
  (`===` in the source) is equality of these naturals.
* The dynamic layout state of the page is an environment `Env` mapping a
  reference to its tag name, its `id` attribute (`""` when absent), its
  current bounding client rect, whether `document.body.contains` it, its
  computed `overflow` / `overflow-x` / `overflow-y` values and its
  scroll/client extents.
* JavaScript function identity (needed because `addEventListener` /
  `removeEventListener` match listeners by function identity) is modelled
  by handler ids drawn from a fresh-id counter `nextId`; each closure the
  source creates (per-indicator scroll handler, per-highlight scroll
  handler, each `this.updateAllIndicatorPositions.bind(this)` expression)
  consumes a fresh id.  The generated element id strings
  `element-${Date.now()}-...` are likewise modelled by fresh ids.
* Registered scroll listeners are a list of (target, handler id) pairs;
  `addEventListener` is a no-op on an already-registered pair and
  `removeEventListener` deletes the pair when present, as in the DOM.
-/

/-- Axis-aligned bounding rect as returned by `getBoundingClientRect`;
`right` and `bottom` are derived as `left + width` and `top + height`. -/
structure Rect where
  top : Int
  left : Int
  width : Int
  height : Int
  deriving Repr, DecidableEq

/-- Per-element layout and style information read by the engine. -/
structure ElemInfo where
  tagName : String
  domId : String
  rect : Rect
  attached : Bool
  overflow : String
  overflowX : String
  overflowY : String
  scrollHeight : Int
  clientHeight : Int
  scrollWidth : Int
  clientWidth : Int
  deriving Repr

/-- The page's current layout state: info for each element reference. -/
def Env : Type := Nat → ElemInfo

/-- A scroll-event target: the window or an element. -/
inductive EventTarget where
  | window
  | elem (ref : Nat)
  deriving Repr, DecidableEq

/-- One entry of `SelectionManager.selectedElements`:
`{ element: element, id: id }`. -/
structure SelItem where
  element : Nat
  id : Nat
  deriving Repr, DecidableEq

/-- One indicator overlay `div` created by `addSelectionIndicator`: its
`data-for-element` id, its target element, its badge number, its current
on-screen rect and the identity of its scroll handler closure. -/
structure Indicator where
  forElement : Nat
  target : Nat
  badge : Nat
  pos : Rect
  scrollHandler : Nat
  deriving Repr, DecidableEq

/-- The `SelectionManager` state (plus the registered scroll listeners,
which in the browser live inside the event targets). -/
structure EngineState where
  selectedElements : List SelItem
  indicators : List Indicator
  scrollContainers : List EventTarget
  listeners : List (EventTarget × Nat)
  resizeObserved : List Nat
  indicatorScrollHandlers : List (Nat × Nat)
  highlightScrollHandler : Option Nat
  highlightedElement : Option Nat
  highlightVisible : Bool
  notifications : List String
  nextId : Nat
  deriving Repr

/-- `addEventListener(target, handler)`: no-op when the same pair is
already registered. -/
def addListener (ls : List (EventTarget × Nat)) (c : EventTarget) (h : Nat) :
    List (EventTarget × Nat) :=
  if (c, h) ∈ ls then ls else ls ++ [(c, h)]

/-- `removeEventListener(target, handler)`: deletes the pair if present. -/
def removeListener (ls : List (EventTarget × Nat)) (c : EventTarget) (h : Nat) :
    List (EventTarget × Nat) :=
  ls.filter (fun p => !decide (p.1 = c ∧ p.2 = h))

/-- `ResizeObserver.observe(element)`: observing an already-observed
element is idempotent. -/
def observeElem (obs : List Nat) (e : Nat) : List Nat :=
  if e ∈ obs then obs else obs ++ [e]

/-- The scrollability test of `detectScrollContainers`: the computed
`overflow` or `overflowY` is `"auto"` or `"scroll"`, and the content
overflows on some axis (`scrollHeight > clientHeight` or
`scrollWidth > clientWidth`).  Note the source never reads `overflowX`
and does not couple the style axis with the overflowing axis. -/
def isScrollable (env : Env) (e : Nat) : Bool :=
  decide ((env e).overflow = "auto" ∨ (env e).overflow = "scroll" ∨
    (env e).overflowY = "auto" ∨ (env e).overflowY = "scroll") &&
  decide ((env e).scrollHeight > (env e).clientHeight ∨
    (env e).scrollWidth > (env e).clientWidth)

/-- The removal loop of `detectScrollContainers`: for each previous
container other than the window, `removeEventListener` is handed a
freshly created bound function (a fresh handler id `k`). -/
def unbindDetectLoop : List EventTarget → List (EventTarget × Nat) → Nat →
    List (EventTarget × Nat) × Nat
  | [], ls, k => (ls, k)
  | .window :: cs, ls, k => unbindDetectLoop cs ls k
  | .elem r :: cs, ls, k => unbindDetectLoop cs (removeListener ls (.elem r) k) (k + 1)

/-- The subscription loop of `detectScrollContainers`: each newly found
scrollable element gets a freshly created bound
`updateAllIndicatorPositions` listener. -/
def subscribeDetectLoop : List Nat → List (EventTarget × Nat) → Nat →
    List (EventTarget × Nat) × Nat
  | [], ls, k => (ls, k)
  | e :: es, ls, k => subscribeDetectLoop es (addListener ls (.elem e) k) (k + 1)

/-- `SelectionManager.detectScrollContainers()`.  `elems` is the list of
element references returned by the all-elements `querySelectorAll` scan
in document order.  The removal loop passes a freshly created
`this.updateAllIndicatorPositions.bind(this)` function to
`removeEventListener`; each such expression creates a new function
object, modelled by a fresh handler id. -/
def detectScrollContainers (env : Env) (elems : List Nat) (st : EngineState) :
    EngineState :=
  let removal := unbindDetectLoop st.scrollContainers st.listeners st.nextId
  let scrollable := elems.filter (fun e => isScrollable env e)
  let subscription := subscribeDetectLoop scrollable removal.1 removal.2
  { st with
    scrollContainers := .window :: scrollable.map .elem,
    listeners := subscription.1,
    nextId := subscription.2 }

/-- `SelectionManager.findElementInSelection(element)`: first an exact
reference match, then the fuzzy match (same tag, same non-empty `id`
attribute, or significant rect overlap with nearly equal dimensions).
Returns the index, `none` standing for the -1 of the source. -/
def findElementInSelection (env : Env) (st : EngineState) (element : Nat) :
    Option Nat :=
  match st.selectedElements.findIdx? (fun item => decide (item.element = element)) with
  | some i => some i
  | none =>
    st.selectedElements.findIdx? (fun item =>
      let e1 := env item.element
      let e2 := env element
      if e1.tagName ≠ e2.tagName then false
      else if e1.domId ≠ "" ∧ e2.domId ≠ "" ∧ e1.domId = e2.domId then true
      else
        let r1 := e1.rect
        let r2 := e2.rect
        let overlap := !decide (r1.left + r1.width < r2.left ∨
          r1.left > r2.left + r2.width ∨
          r1.top + r1.height < r2.top ∨
          r1.top > r2.top + r2.height)
        overlap && decide ((r1.width - r2.width).natAbs < 5) &&
          decide ((r1.height - r2.height).natAbs < 5))

/-- `SelectionManager.addSelectionIndicator(element, id)`: creates the
indicator `div` (badge text `selectedElements.length + 1`, position from
`getBoundingClientRect`), appends it to the body, observes the element
with the `ResizeObserver`, and subscribes a fresh per-indicator throttled
scroll handler on every current scroll container. -/
def addSelectionIndicator (env : Env) (st : EngineState) (element : Nat)
    (id : Nat) : EngineState :=
  let handler := st.nextId
  let indicator : Indicator :=
    { forElement := id
      target := element
      badge := st.selectedElements.length + 1
      pos := (env element).rect
      scrollHandler := handler }
  { st with
    indicators := st.indicators ++ [indicator]
    resizeObserved := observeElem st.resizeObserved element
    listeners := st.scrollContainers.foldl
      (fun ls c => addListener ls c handler) st.listeners
    indicatorScrollHandlers := st.indicatorScrollHandlers ++ [(id, handler)]
    nextId := st.nextId + 1 }

/-- `SelectionManager.addElementToSelection(element)`: refuses (with the
"Element already selected" notification) when `findElementInSelection`
finds a match; otherwise generates a fresh id, creates the indicator and
appends the pair to `selectedElements`. -/
def addElementToSelection (env : Env) (st : EngineState) (element : Nat) :
    EngineState × Bool :=
  match findElementInSelection env st element with
  | some _ =>
    ({ st with notifications := st.notifications ++ ["Element already selected"] },
      false)
  | none =>
    let id := st.nextId
    let st1 := addSelectionIndicator env { st with nextId := st.nextId + 1 }
      element id
    ({ st1 with
        selectedElements := st1.selectedElements ++ [{ element := element, id := id }] },
      true)

/-- Update of the first indicator whose `data-for-element` matches `id`
(what `document.querySelector` + the style assignments do). -/
def updateFirstIndicator (inds : List Indicator) (id : Nat) (r : Rect) :
    List Indicator :=
  match inds with
  | [] => []
  | ind :: rest =>
    if ind.forElement = id then { ind with pos := r } :: rest
    else ind :: updateFirstIndicator rest id r

/-- `SelectionManager.updateAllIndicatorPositions()`: for every selected
item, if its indicator is found and the element is still contained in
the body, reposition the indicator; detached elements are merely
skipped, nothing is removed. -/
def updateAllIndicatorPositions (env : Env) (st : EngineState) : EngineState :=
  { st with
    indicators := st.selectedElements.foldl
      (fun inds item =>
        if ((inds.find? (fun ind => decide (ind.forElement = item.id))).isSome &&
            (env item.element).attached) then
          updateFirstIndicator inds item.id (env item.element).rect
        else inds)
      st.indicators }

/-- The badge renumbering loop of `removeElementFromSelection`
(`indicators.forEach((ind, i) => badge.textContent = i + 1)`), with the
starting ordinal made explicit. -/
def renumberFrom (n : Nat) : List Indicator → List Indicator
  | [] => []
  | ind :: rest => { ind with badge := n } :: renumberFrom (n + 1) rest

/-- Placeholder pair for the (unreachable) out-of-range list access. -/
def defaultSelItem : SelItem := { element := 0, id := 0 }

/-- The body of `removeElementFromSelection` for an in-range index:
unobserves the element, removes the matching indicator (after
unsubscribing its scroll handler from every current scroll container),
deletes the handler-map entry, splices the pair out, and renumbers the
remaining badges `1..N`. -/
def removeValidIndex (st : EngineState) (i : Nat) : EngineState :=
  let item := st.selectedElements.getD i defaultSelItem
  let id := item.id
  let cleaned : List (EventTarget × Nat) × List Indicator :=
    match st.indicators.find? (fun ind => decide (ind.forElement = id)) with
    | some ind =>
      (st.listeners.filter
        (fun p => !decide (p.1 ∈ st.scrollContainers ∧ p.2 = ind.scrollHandler)),
       st.indicators.eraseP (fun ind2 => decide (ind2.forElement = id)))
    | none => (st.listeners, st.indicators)
  { st with
    selectedElements := st.selectedElements.eraseIdx i
    indicators := renumberFrom 1 cleaned.2
    listeners := cleaned.1
    resizeObserved := st.resizeObserved.erase item.element
    indicatorScrollHandlers :=
      st.indicatorScrollHandlers.filter (fun p => !decide (p.1 = id)) }

/-- `SelectionManager.removeElementFromSelection(index)`: an
out-of-range index returns immediately with no state change. -/
def removeElementFromSelection (st : EngineState) (index : Int) : EngineState :=
  if index < 0 ∨ (st.selectedElements.length : Int) ≤ index then st
  else removeValidIndex st index.toNat

/-- `SelectionManager.clearSelection()`: removes every indicator (each
unsubscribing its scroll handler from every current scroll container),
disconnects and re-creates the `ResizeObserver`, empties the pair list
and the handler map, and hides the highlight overlay.  The
`highlightScrollHandler` and the container-level listeners added by
`detectScrollContainers` are not touched, mirroring the source. -/
def clearSelection (st : EngineState) : EngineState :=
  let handlerIds := st.indicators.map (fun ind => ind.scrollHandler)
  { st with
    indicators := []
    listeners := st.listeners.filter
      (fun p => !decide (p.1 ∈ st.scrollContainers ∧ p.2 ∈ handlerIds))
    resizeObserved := []
    selectedElements := []
    indicatorScrollHandlers := []
    highlightVisible := false
    highlightedElement := none }

/-- `SelectionManager.highlightSelectedElement(index)`: out-of-range is a
no-op; a detached element is removed via `removeElementFromSelection`;
otherwise the highlight overlay is shown over the element and a fresh
throttled scroll handler replaces the previous highlight handler on all
current scroll containers. -/
def highlightSelectedElement (env : Env) (st : EngineState) (index : Int) :
    EngineState :=
  if index < 0 ∨ (st.selectedElements.length : Int) ≤ index then st
  else
    let item := st.selectedElements.getD index.toNat defaultSelItem
    if (env item.element).attached = false then
      removeElementFromSelection st index
    else
      let handler := st.nextId
      let ls1 :=
        match st.highlightScrollHandler with
        | some old => st.listeners.filter
            (fun p => !decide (p.1 ∈ st.scrollContainers ∧ p.2 = old))
        | none => st.listeners
      { st with
        highlightVisible := true
        highlightedElement := some item.element
        highlightScrollHandler := some handler
        listeners := st.scrollContainers.foldl
          (fun ls c => addListener ls c handler) ls1
        nextId := st.nextId + 1 }

/-- The object-literal state of `SelectionManager` before `init()`. -/
def freshState : EngineState :=
  { selectedElements := []
    indicators := []
    scrollContainers := []
    listeners := []
    resizeObserved := []
    indicatorScrollHandlers := []
    highlightScrollHandler := none
    highlightedElement := none
    highlightVisible := false
    notifications := []
    nextId := 0 }

/-- `SelectionManager.init()` as far as the engine state is concerned:
the initial `detectScrollContainers()` pass. -/
def initState (env : Env) (elems : List Nat) : EngineState :=
  detectScrollContainers env elems freshState

/-- The external operations of the tracking registry. -/
inductive Op where
  | add (env : Env) (element : Nat)
  | remove (index : Int)
  | clear

/-- Apply one external operation. -/
def applyOp (st : EngineState) : Op → EngineState
  | .add env e => (addElementToSelection env st e).1
  | .remove i => removeElementFromSelection st i
  | .clear => clearSelection st

/-- Run a sequence of external operations. -/
def runOps (st : EngineState) (ops : List Op) : EngineState :=
  ops.foldl applyOp st

/-!
The change-signal paths of `Highlighter.setupEventListeners`,
`initMutationObserver` and the per-indicator scroll handlers.
-/

/-- State of the window-scroll throttle in `Highlighter.setupEventListeners`:
whether a `_scrollThrottleTimeout` is currently scheduled, and how many
recompute passes (`updateAllIndicatorPositions` invocations) have run. -/
structure ThrottleState where
  pending : Bool
  passes : Nat
  deriving Repr, DecidableEq

/-- The window-scroll handler of `Highlighter.setupEventListeners`: when
the highlighter is active and the selection is non-empty, schedule one
recompute for 16 ms later unless one is already scheduled. -/
def onWindowScroll (isActive : Bool) (selCount : Nat) (ts : ThrottleState) :
    ThrottleState :=
  if isActive && decide (selCount > 0) && !ts.pending then
    { ts with pending := true }
  else ts

/-- Expiry of the scheduled `setTimeout`: runs the coalesced recompute
pass and resets `_scrollThrottleTimeout` to `null`. -/
def fireThrottleTimeout (ts : ThrottleState) : ThrottleState :=
  if ts.pending then { pending := false, passes := ts.passes + 1 } else ts

/-- The throttle state after `n` window-scroll signals inside one 16 ms
throttle window (the scheduled timeout has not yet expired). -/
def scrollSignals (isActive : Bool) (selCount : Nat) : Nat → ThrottleState
  | 0 => { pending := false, passes := 0 }
  | n + 1 => onWindowScroll isActive selCount (scrollSignals isActive selCount n)

/-- Recompute passes produced by a burst of `n` window-scroll signals in
one throttle window, counting the trailing timeout expiry at the end of
the window. -/
def scrollBurstPasses (isActive : Bool) (selCount : Nat) (n : Nat) : Nat :=
  (fireThrottleTimeout (scrollSignals isActive selCount n)).passes

/-- One DOM mutation record as inspected by the `MutationObserver`
callback of `initMutationObserver`. -/
structure MutationRecordInfo where
  isChildList : Bool
  addedNodes : Nat
  removedNodes : Nat
  isAttributes : Bool
  attributeName : String
  deriving Repr

/-- The significance test of the `MutationObserver` callback. -/
def significantChange (ms : List MutationRecordInfo) : Bool :=
  ms.any fun m =>
    (m.isChildList && (decide (m.addedNodes > 0) || decide (m.removedNodes > 0))) ||
    (m.isAttributes && (m.attributeName == "style" || m.attributeName == "class"))

/-- Recompute passes triggered by a sequence of `MutationObserver`
callback deliveries: every significant batch calls
`updateAllIndicatorPositions` directly, with no throttling between
deliveries. -/
def mutationPasses (batches : List (List MutationRecordInfo)) : Nat :=
  (batches.filter significantChange).length

/-!
The spec-side scroll-surface predicate, for comparison with the
implementation, and concrete scenarios used as witnesses and
counterexamples.
-/

/-- Modelled from the spec: the axis-coupled scroll-surface
classification, "its computed overflow behavior for at least one axis is
auto or scroll AND its content extent exceeds its visible extent on that
axis".  Compared against the implementation predicate `isScrollable`. -/
def specAxisCoupledScrollable (env : Env) (e : Nat) : Bool :=
  (decide ((env e).overflowY = "auto" ∨ (env e).overflowY = "scroll") &&
    decide ((env e).scrollHeight > (env e).clientHeight)) ||
  (decide ((env e).overflowX = "auto" ∨ (env e).overflowX = "scroll") &&
    decide ((env e).scrollWidth > (env e).clientWidth))

/-- A plain attached element: non-scrollable, no `id` attribute. -/
def plainElemInfo : ElemInfo :=
  { tagName := "DIV"
    domId := ""
    rect := { top := 0, left := 0, width := 10, height := 10 }
    attached := true
    overflow := "visible"
    overflowX := "visible"
    overflowY := "visible"
    scrollHeight := 0
    clientHeight := 0
    scrollWidth := 0
    clientWidth := 0 }

/-- Every element attached and plain. -/
def envPlain : Env := fun _ => plainElemInfo

/-- Every element detached from the tree. -/
def envDetached : Env := fun _ => { plainElemInfo with attached := false }

/-- Elements with pairwise distant rects (so the fuzzy matcher of
`findElementInSelection` does not identify distinct references). -/
def envDistinctRects : Env := fun r =>
  { plainElemInfo with
    rect := { top := 100 * (r : Int), left := 0, width := 10 + 10 * (r : Int), height := 10 } }

/-- Engine state with exactly one tracked element (reference 0). -/
def oneTrackedState : EngineState :=
  (addElementToSelection envPlain (initState envPlain []) 0).1

/-- Engine state with two tracked elements (references 0 and 1). -/
def twoTrackedState : EngineState :=
  (addElementToSelection envDistinctRects
    ((addElementToSelection envDistinctRects (initState envDistinctRects []) 0).1) 1).1

/-- `oneTrackedState` after `highlightSelectedElement(0)` installed the
spotlight scroll handler. -/
def spotlightState : EngineState :=
  highlightSelectedElement envPlain oneTrackedState ((0 : Nat) : Int)

/-- An element whose computed `overflow-y` is `auto` but whose content
only overflows horizontally (where `overflow-x` is `visible`). -/
def envMixedOverflow : Env := fun _ =>
  { plainElemInfo with
    overflowY := "auto"
    scrollHeight := 100
    clientHeight := 100
    scrollWidth := 200
    clientWidth := 100 }

/-- An element that is a genuine vertical scroller. -/
def envScrollableY : Env := fun _ =>
  { plainElemInfo with
    overflowY := "auto"
    scrollHeight := 200
    clientHeight := 100 }

/-- First scroll-surface detection pass: element 0 is scrollable. -/
def redetectState1 : EngineState :=
  detectScrollContainers envScrollableY [0] freshState

/-- Second pass over the same tree, element 0 no longer scrollable. -/
def redetectState2 : EngineState :=
  detectScrollContainers envPlain [0] redetectState1

/-- A mutation batch containing one significant childList record. -/
def childListBatch : List MutationRecordInfo :=
  [{ isChildList := true
     addedNodes := 1
     removedNodes := 0
     isAttributes := false
     attributeName := "" }]

/-!
### Helper lemmas
-/

theorem renumberFrom_map_forElement (n : Nat) (l : List Indicator) :
    (renumberFrom n l).map (fun ind => ind.forElement)
      = l.map (fun ind => ind.forElement) := by
  induction l generalizing n with
  | nil => rfl
  | cons a t ih => simp [renumberFrom, ih]

theorem renumberFrom_length (n : Nat) (l : List Indicator) :
    (renumberFrom n l).length = l.length := by
  induction l generalizing n with
  | nil => rfl
  | cons a t ih => simp [renumberFrom, ih]

theorem renumberFrom_map_badge (n : Nat) (l : List Indicator) :
    (renumberFrom n l).map (fun ind => ind.badge) = List.range' n l.length := by
  induction l generalizing n with
  | nil => rfl
  | cons a t ih => simp [renumberFrom, ih, List.range'_succ]

theorem map_eraseP_key {α : Type} (f : α → Nat) (l : List α) (b : Nat) :
    (l.eraseP (fun a => decide (f a = b))).map f
      = (l.map f).eraseP (fun x => decide (x = b)) := by
  induction l with
  | nil => rfl
  | cons a t ih =>
    by_cases h : f a = b
    · simp [List.eraseP_cons, h]
    · simp [List.eraseP_cons, h, ih]

theorem nodup_eraseP_get (l : List Nat) (hn : l.Nodup) (i : Nat)
    (h : i < l.length) :
    l.eraseP (fun x => decide (x = l.get ⟨i, h⟩)) = l.eraseIdx i := by
  induction l generalizing i with
  | nil => exact absurd h (by simp)
  | cons a t ih =>
    cases i with
    | zero => simp [List.eraseP_cons]
    | succ j =>
      have hj : j < t.length := by simpa using h
      have hmem : t[j] ∈ t := List.getElem_mem hj
      have hne : a ≠ t[j] := by
        intro he
        exact (List.nodup_cons.mp hn).1 (he ▸ hmem)
      simp only [List.eraseP_cons, List.get_eq_getElem, List.getElem_cons_succ,
        List.eraseIdx_cons_succ]
      rw [decide_eq_false hne, cond_false]
      refine congrArg (List.cons a) ?_
      simpa [List.get_eq_getElem] using ih (List.nodup_cons.mp hn).2 j hj

theorem map_eraseIdx {α β : Type} (f : α → β) (l : List α) (i : Nat) :
    (l.eraseIdx i).map f = (l.map f).eraseIdx i := by
  induction l generalizing i with
  | nil => rfl
  | cons a t ih =>
    cases i with
    | zero => rfl
    | succ j => simp [List.eraseIdx, ih]

/-- The reachable-state invariant of the tracking registry: indicator
`data-for-element` ids mirror the selected-pair ids in order, pair ids
are distinct and below the fresh-id counter, and tracked element
references are distinct. -/
def EngineInv (st : EngineState) : Prop :=
  st.indicators.map (fun ind => ind.forElement)
      = st.selectedElements.map (fun s => s.id) ∧
  (st.selectedElements.map (fun s => s.id)).Nodup ∧
  (∀ x ∈ st.selectedElements.map (fun s => s.id), x < st.nextId) ∧
  (st.selectedElements.map (fun s => s.element)).Nodup

instance engineInvDecidable (st : EngineState) : Decidable (EngineInv st) := by
  unfold EngineInv
  infer_instance

theorem engineInv_fresh : EngineInv freshState := by decide

theorem engineInv_detect (env : Env) (elems : List Nat) (st : EngineState)
    (h : EngineInv st) : EngineInv (detectScrollContainers env elems st) := by
  obtain ⟨h1, h2, h3, h4⟩ := h
  refine ⟨h1, h2, ?_, h4⟩
  intro x hx
  have hx' := h3 x hx
  have hmono : ∀ (cs : List EventTarget) (ls : List (EventTarget × Nat)) (k : Nat),
      k ≤ (unbindDetectLoop cs ls k).2 := by
    intro cs
    induction cs with
    | nil => intro ls k; exact Nat.le_refl k
    | cons c t ih =>
      intro ls k
      cases c with
      | window => exact ih ls k
      | elem r => exact Nat.le_trans (Nat.le_succ k) (ih _ (k + 1))
  have hmono2 : ∀ (es : List Nat) (ls : List (EventTarget × Nat)) (k : Nat),
      k ≤ (subscribeDetectLoop es ls k).2 := by
    intro es
    induction es with
    | nil => intro ls k; exact Nat.le_refl k
    | cons e t ih =>
      intro ls k
      exact Nat.le_trans (Nat.le_succ k) (ih _ (k + 1))
  simp only [detectScrollContainers]
  have := hmono st.scrollContainers st.listeners st.nextId
  have := hmono2 (elems.filter (fun e => isScrollable env e))
    (unbindDetectLoop st.scrollContainers st.listeners st.nextId).1
    (unbindDetectLoop st.scrollContainers st.listeners st.nextId).2
  omega

theorem engineInv_clear (st : EngineState) : EngineInv (clearSelection st) := by
  refine ⟨rfl, ?_, ?_, ?_⟩ <;> simp [clearSelection]

theorem findElementInSelection_exact_none (env : Env) (st : EngineState)
    (e : Nat) (hf : findElementInSelection env st e = none) :
    ∀ s ∈ st.selectedElements, s.element ≠ e := by
  intro s hs
  unfold findElementInSelection at hf
  cases hx : st.selectedElements.findIdx? (fun item => decide (item.element = e)) with
  | some j => rw [hx] at hf; exact absurd hf (by simp)
  | none =>
    have := List.findIdx?_eq_none_iff.mp hx s hs
    simpa using this

theorem engineInv_add (env : Env) (st : EngineState) (e : Nat)
    (h : EngineInv st) : EngineInv (addElementToSelection env st e).1 := by
  obtain ⟨h1, h2, h3, h4⟩ := h
  unfold addElementToSelection
  cases hf : findElementInSelection env st e with
  | some i => exact ⟨h1, h2, h3, h4⟩
  | none =>
    have hne := findElementInSelection_exact_none env st e hf
    refine ⟨?_, ?_, ?_, ?_⟩
    · simp [addSelectionIndicator, h1]
    · simp only [addSelectionIndicator, List.map_append]
      rw [List.nodup_append]
      refine ⟨h2, by simp, ?_⟩
      intro a ha hb
      simp only [List.map_cons, List.map_nil, List.mem_singleton] at hb
      subst hb
      have := h3 _ ha
      omega
    · intro x hx
      simp only [addSelectionIndicator, List.map_append, List.mem_append] at hx
      simp only [addSelectionIndicator]
      rcases hx with hx | hx
      · have := h3 x hx
        omega
      · simp only [List.map_cons, List.map_nil, List.mem_singleton] at hx
        subst hx
        omega
    · simp only [addSelectionIndicator, List.map_append]
      rw [List.nodup_append]
      refine ⟨h4, by simp, ?_⟩
      intro a ha hb
      simp only [List.map_cons, List.map_nil, List.mem_singleton] at hb
      subst hb
      obtain ⟨s, hs, hse⟩ := List.mem_map.mp ha
      exact hne s hs hse

theorem engineInv_removeValid (st : EngineState) (i : Nat)
    (hlt : i < st.selectedElements.length) (h : EngineInv st) :
    EngineInv (removeValidIndex st i) := by
  obtain ⟨h1, h2, h3, h4⟩ := h
  have hgetD : st.selectedElements.getD i defaultSelItem = st.selectedElements[i] := by
    simp [List.getD_eq_getElem?_getD, List.getElem?_eq_getElem hlt]
  have hlen : st.indicators.length = st.selectedElements.length := by
    have := congrArg List.length h1
    simpa using this
  have hilt : i < st.indicators.length := by omega
  have hfe : (st.indicators[i]).forElement = (st.selectedElements[i]).id := by
    have hq : (st.indicators.map (fun ind => ind.forElement))[i]?
        = (st.selectedElements.map (fun s => s.id))[i]? := by rw [h1]
    rw [List.getElem?_map, List.getElem?_map, List.getElem?_eq_getElem hilt,
      List.getElem?_eq_getElem hlt] at hq
    simpa using hq
  cases hfind : st.indicators.find?
      (fun ind => decide (ind.forElement = (st.selectedElements.getD i defaultSelItem).id)) with
  | none =>
    exfalso
    have hall := List.find?_eq_none.mp hfind
    have hmem : st.indicators[i] ∈ st.indicators := List.getElem_mem hilt
    have := hall _ hmem
    rw [hgetD] at this
    simp [hfe] at this
  | some ind =>
    have hids : i < (st.selectedElements.map (fun s => s.id)).length := by simpa using hlt
    have hgetid : (st.selectedElements.map (fun s => s.id)).get ⟨i, hids⟩
        = (st.selectedElements[i]).id := by simp
    refine ⟨?_, ?_, ?_, ?_⟩
    · show (renumberFrom 1 _).map (fun ind => ind.forElement) = _
      rw [removeValidIndex]
      simp only [hfind]
      rw [renumberFrom_map_forElement, hgetD]
      have hkey := map_eraseP_key (fun ind => ind.forElement) st.indicators
        ((st.selectedElements[i]).id)
      rw [hkey, h1]
      have := nodup_eraseP_get (st.selectedElements.map (fun s => s.id)) h2 i hids
      rw [hgetid] at this
      rw [this]
      rw [← map_eraseIdx]
    · show ((removeValidIndex st i).selectedElements.map (fun s => s.id)).Nodup
      have : (removeValidIndex st i).selectedElements = st.selectedElements.eraseIdx i := rfl
      rw [this, map_eraseIdx]
      exact h2.sublist (List.eraseIdx_sublist _ i)
    · intro x hx
      have heq : (removeValidIndex st i).selectedElements = st.selectedElements.eraseIdx i := rfl
      rw [heq, map_eraseIdx] at hx
      have hx' : x ∈ st.selectedElements.map (fun s => s.id) :=
        (List.eraseIdx_sublist _ i).mem hx
      have := h3 x hx'
      have hnid : (removeValidIndex st i).nextId = st.nextId := rfl
      omega
    · have heq : (removeValidIndex st i).selectedElements = st.selectedElements.eraseIdx i := rfl
      rw [heq, map_eraseIdx]
      exact h4.sublist (List.eraseIdx_sublist _ i)

theorem engineInv_remove (st : EngineState) (index : Int) (h : EngineInv st) :
    EngineInv (removeElementFromSelection st index) := by
  unfold removeElementFromSelection
  split
  · exact h
  next hrange =>
    have hlt : index.toNat < st.selectedElements.length := by omega
    exact engineInv_removeValid st index.toNat hlt h

theorem engineInv_runOps (st : EngineState) (ops : List Op) (h : EngineInv st) :
    EngineInv (runOps st ops) := by
  induction ops generalizing st with
  | nil => exact h
  | cons op t ih =>
    cases op with
    | add env e => exact ih _ (engineInv_add env st e h)
    | remove i => exact ih _ (engineInv_remove st i h)
    | clear => exact ih _ (engineInv_clear st)

theorem engineInv_init (env : Env) (elems : List Nat) :
    EngineInv (initState env elems) :=
  engineInv_detect env elems freshState engineInv_fresh

theorem updateFirstIndicator_map_forElement (inds : List Indicator)
    (id : Nat) (r : Rect) :
    (updateFirstIndicator inds id r).map (fun ind => ind.forElement)
      = inds.map (fun ind => ind.forElement) := by
  induction inds with
  | nil => rfl
  | cons a t ih =>
    by_cases h : a.forElement = id <;> simp [updateFirstIndicator, h, ih]

theorem foldl_update_map_forElement (env : Env) (sels : List SelItem)
    (inds : List Indicator) :
    (sels.foldl (fun inds item =>
        if ((inds.find? (fun ind => decide (ind.forElement = item.id))).isSome &&
            (env item.element).attached) then
          updateFirstIndicator inds item.id (env item.element).rect
        else inds) inds).map (fun ind => ind.forElement)
      = inds.map (fun ind => ind.forElement) := by
  induction sels generalizing inds with
  | nil => rfl
  | cons s t ih =>
    rw [List.foldl_cons, ih]
    by_cases h : ((inds.find? (fun ind => decide (ind.forElement = s.id))).isSome &&
        (env s.element).attached) = true
    · rw [if_pos h, updateFirstIndicator_map_forElement]
    · rw [if_neg h]

/-!
### Claim theorems
-/

/-- C1: for every sequence of `add`/`remove`/`clear` operations run from
the initialized engine, the number of live indicator overlays equals the
number of entries in the tracked-pair list after the sequence completes;
since every prefix of such a sequence is itself such a sequence, this
holds at every observable point. -/
theorem selection_indicator_count_invariant (env : Env) (elems : List Nat)
    (ops : List Op) :
    (runOps (initState env elems) ops).indicators.length
      = (runOps (initState env elems) ops).selectedElements.length := by
  have h := engineInv_runOps (initState env elems) ops (engineInv_init env elems)
  have := congrArg List.length h.1
  simpa using this

/-- C9: `removeElementFromSelection` on an index outside
`[0, pair count)` returns with the entire engine state unchanged. -/
theorem remove_out_of_range_noop (st : EngineState) (i : Int)
    (h : i < 0 ∨ (st.selectedElements.length : Int) ≤ i) :
    removeElementFromSelection st i = st := by
  unfold removeElementFromSelection
  rw [if_pos h]

theorem remove_out_of_range_noop_witness :
    ((-1 : Int) < 0 ∨ ((freshState.selectedElements.length : Int) ≤ (-1 : Int))) ∧
    removeElementFromSelection freshState (-1) = freshState :=
  ⟨Or.inl (by decide), remove_out_of_range_noop freshState (-1) (Or.inl (by decide))⟩

/-- C10: removing a valid index deletes exactly the pair at that
position: the remaining pairs are the original list with position `i`
spliced out (every other pair keeps its element reference, its id and
its relative order) and the pair count decreases by exactly one. -/
theorem remove_valid_index_frame (st : EngineState) (i : Nat)
    (h : i < st.selectedElements.length) :
    (removeElementFromSelection st (i : Int)).selectedElements
        = st.selectedElements.take i ++ st.selectedElements.drop (i + 1) ∧
    (removeElementFromSelection st (i : Int)).selectedElements.length + 1
        = st.selectedElements.length := by
  have hco : removeElementFromSelection st (i : Int) = removeValidIndex st i := by
    have htn : ((i : Int)).toNat = i := by omega
    unfold removeElementFromSelection
    rw [if_neg (by omega), htn]
  constructor
  · rw [hco]
    show st.selectedElements.eraseIdx i = _
    exact List.eraseIdx_eq_take_drop_succ ..
  · rw [hco]
    show (st.selectedElements.eraseIdx i).length + 1 = _
    rw [List.length_eraseIdx_of_lt h]
    omega

theorem remove_valid_index_frame_witness :
    0 < twoTrackedState.selectedElements.length ∧
    (removeElementFromSelection twoTrackedState ((0 : Nat) : Int)).selectedElements
      = twoTrackedState.selectedElements.take 0 ++ twoTrackedState.selectedElements.drop 1 :=
  ⟨by decide, (remove_valid_index_frame twoTrackedState 0 (by decide)).1⟩

/-- C3 counterexample: after `add(0)`, `highlightSelectedElement(0)` and
then `clearSelection()`, the pair list and indicators are empty but one
scroll subscription (the spotlight handler installed by
`highlightSelectedElement`) is still registered on the window, and the
`highlightScrollHandler` field still holds it — the engine is not in the
observable state of a freshly constructed instance and a residual scroll
subscription remains, contradicting the claim. -/
theorem clear_leaves_residual_scroll_listener :
    (clearSelection spotlightState).selectedElements = [] ∧
    (clearSelection spotlightState).indicators = [] ∧
    (clearSelection spotlightState).listeners = [(EventTarget.window, 2)] ∧
    (clearSelection spotlightState).listeners.length ≠ 0 ∧
    (clearSelection spotlightState).highlightScrollHandler = some 2 := by
  decide

/-- C3 amended: `clearSelection` always leaves zero tracked pairs, zero
indicators, an empty per-indicator handler map, zero resize
subscriptions (the `ResizeObserver` is disconnected and re-created), a
hidden spotlight overlay and no highlighted element; but it does not
unsubscribe the spotlight scroll handler or the container-level
detection listeners, so residual scroll subscriptions can survive. -/
theorem clear_resets_pairs_indicators_observers (st : EngineState) :
    (clearSelection st).selectedElements = [] ∧
    (clearSelection st).indicators = [] ∧
    (clearSelection st).indicatorScrollHandlers = [] ∧
    (clearSelection st).resizeObserved = [] ∧
    (clearSelection st).highlightedElement = none ∧
    (clearSelection st).highlightVisible = false :=
  ⟨rfl, rfl, rfl, rfl, rfl, rfl⟩

/-- C2 counterexample: with one tracked pair whose node is detached, one
recompute pass (`updateAllIndicatorPositions`) leaves the pair and its
indicator in place (count 1, not 0), contradicting the claim that a
recompute pass removes the pair and indicator of a detached node. -/
theorem recompute_does_not_evict_detached :
    oneTrackedState.selectedElements.map (fun s => s.element) = [0] ∧
    (envDetached 0).attached = false ∧
    (updateAllIndicatorPositions envDetached oneTrackedState).selectedElements.length = 1 ∧
    (updateAllIndicatorPositions envDetached oneTrackedState).indicators.length = 1 := by
  decide

/-- C2 amended: a recompute pass never evicts — it leaves the pair list
untouched and preserves the indicator registry (only positions are
updated, detached elements are simply skipped); eviction of a detached
tracked node happens only in `highlightSelectedElement`, which on a
detached in-range index has exactly the effect of
`removeElementFromSelection` on that index. -/
theorem recompute_skips_detached_and_highlight_evicts (env : Env)
    (st : EngineState) (i : Nat) (hlt : i < st.selectedElements.length)
    (hdet : (env (st.selectedElements.getD i defaultSelItem).element).attached
      = false) :
    (updateAllIndicatorPositions env st).selectedElements = st.selectedElements ∧
    (updateAllIndicatorPositions env st).indicators.map (fun ind => ind.forElement)
      = st.indicators.map (fun ind => ind.forElement) ∧
    (updateAllIndicatorPositions env st).indicators.length = st.indicators.length ∧
    highlightSelectedElement env st (i : Int)
      = removeElementFromSelection st (i : Int) := by
  refine ⟨rfl, foldl_update_map_forElement env _ _, ?_, ?_⟩
  · have h2 := congrArg List.length
      (show (updateAllIndicatorPositions env st).indicators.map (fun ind => ind.forElement)
          = st.indicators.map (fun ind => ind.forElement)
        from foldl_update_map_forElement env _ _)
    rw [List.length_map, List.length_map] at h2
    exact h2
  · unfold highlightSelectedElement
    rw [if_neg (by omega)]
    have htn : ((i : Int)).toNat = i := by omega
    simp only [htn]
    rw [if_pos hdet]

theorem recompute_skips_detached_and_highlight_evicts_witness :
    0 < oneTrackedState.selectedElements.length ∧
    (envDetached (oneTrackedState.selectedElements.getD 0 defaultSelItem).element).attached
      = false ∧
    highlightSelectedElement envDetached oneTrackedState ((0 : Nat) : Int)
      = removeElementFromSelection oneTrackedState ((0 : Nat) : Int) :=
  ⟨by decide, by decide,
    (recompute_skips_detached_and_highlight_evicts envDetached oneTrackedState 0
      (by decide) (by decide)).2.2.2⟩

theorem findElementInSelection_congr (env : Env) (st1 st2 : EngineState)
    (e : Nat) (h : st1.selectedElements = st2.selectedElements) :
    findElementInSelection env st1 e = findElementInSelection env st2 e := by
  unfold findElementInSelection
  rw [h]

theorem find_isSome_of_mem (env : Env) (st : EngineState) (e : Nat)
    (h : e ∈ st.selectedElements.map (fun s => s.element)) :
    (findElementInSelection env st e).isSome = true := by
  unfold findElementInSelection
  cases hx : st.selectedElements.findIdx? (fun item => decide (item.element = e)) with
  | some j => rfl
  | none =>
    exfalso
    obtain ⟨s, hs, hse⟩ := List.mem_map.mp h
    have := List.findIdx?_eq_none_iff.mp hx s hs
    simp [hse] at this

/-- C4: adding the same node reference twice in a row changes state only
once — the second call returns `false`, emits the "Element already
selected" notification, and leaves the pair list and indicators exactly
as after the first call; moreover over every `add`/`remove`/`clear`
sequence from the initialized engine, tracked element references stay
pairwise distinct, so at most one tracked pair per node reference is
ever live. -/
theorem add_idempotent_and_unique_tracking :
    (∀ (env : Env) (st : EngineState) (e : Nat),
      (addElementToSelection env (addElementToSelection env st e).1 e).2 = false ∧
      (addElementToSelection env (addElementToSelection env st e).1 e).1.selectedElements
        = (addElementToSelection env st e).1.selectedElements ∧
      (addElementToSelection env (addElementToSelection env st e).1 e).1.indicators
        = (addElementToSelection env st e).1.indicators ∧
      (addElementToSelection env (addElementToSelection env st e).1 e).1.notifications
        = (addElementToSelection env st e).1.notifications
          ++ ["Element already selected"]) ∧
    (∀ (env : Env) (elems : List Nat) (ops : List Op),
      ((runOps (initState env elems) ops).selectedElements.map
        (fun s => s.element)).Nodup) := by
  constructor
  · intro env st e
    set st1 := (addElementToSelection env st e).1 with hst1
    have hsome : (findElementInSelection env st1 e).isSome = true := by
      cases hf : findElementInSelection env st e with
      | some j =>
        have hsel : st1.selectedElements = st.selectedElements := by
          rw [hst1]
          unfold addElementToSelection
          rw [hf]
        rw [findElementInSelection_congr env st1 st e hsel, hf]
        rfl
      | none =>
        apply find_isSome_of_mem
        have hsel : st1.selectedElements
            = st.selectedElements ++ [{ element := e, id := st.nextId }] := by
          rw [hst1]
          unfold addElementToSelection
          rw [hf]
          rfl
        rw [hsel]
        simp
    obtain ⟨j, hj⟩ := Option.isSome_iff_exists.mp hsome
    unfold addElementToSelection
    rw [hj]
    exact ⟨rfl, rfl, rfl, rfl⟩
  · intro env elems ops
    exact (engineInv_runOps _ ops (engineInv_init env elems)).2.2.2

/-- C5: after removing a valid index from a state satisfying the
registry invariant, the remaining indicators' badges are exactly the
contiguous sequence `1..N` where `N` is the new pair count, and the
indicators still mirror the pair list in registry order. -/
theorem badges_contiguous_after_remove (st : EngineState) (hInv : EngineInv st)
    (i : Nat) (hlt : i < st.selectedElements.length) :
    (removeElementFromSelection st (i : Int)).indicators.map (fun ind => ind.badge)
        = List.range' 1
          (removeElementFromSelection st (i : Int)).selectedElements.length ∧
    (removeElementFromSelection st (i : Int)).indicators.map (fun ind => ind.forElement)
        = (removeElementFromSelection st (i : Int)).selectedElements.map
          (fun s => s.id) := by
  have hco : removeElementFromSelection st (i : Int) = removeValidIndex st i := by
    have htn : ((i : Int)).toNat = i := by omega
    unfold removeElementFromSelection
    rw [if_neg (by omega), htn]
  have hpres := engineInv_removeValid st i hlt hInv
  rw [hco]
  refine ⟨?_, hpres.1⟩
  have hlen : (removeValidIndex st i).indicators.length
      = (removeValidIndex st i).selectedElements.length := by
    have hc := congrArg List.length hpres.1
    rw [List.length_map, List.length_map] at hc
    exact hc
  obtain ⟨l, hl⟩ : ∃ l, (removeValidIndex st i).indicators = renumberFrom 1 l :=
    ⟨_, rfl⟩
  rw [hl, renumberFrom_map_badge]
  congr 1
  have hc := congrArg List.length hl
  rw [renumberFrom_length] at hc
  omega

theorem badges_contiguous_after_remove_witness :
    EngineInv twoTrackedState ∧
    0 < twoTrackedState.selectedElements.length ∧
    (removeElementFromSelection twoTrackedState ((0 : Nat) : Int)).indicators.map
        (fun ind => ind.badge)
      = List.range' 1
        (removeElementFromSelection twoTrackedState ((0 : Nat) : Int)).selectedElements.length :=
  ⟨by decide, by decide,
    (badges_contiguous_after_remove twoTrackedState (by decide) 0 (by decide)).1⟩

/-- C6 counterexample: two significant mutation batches delivered within
one 16 ms window each trigger their own `updateAllIndicatorPositions`
call — 2 recompute passes, not 1: mutation signals are not routed
through any throttle, so N signals within one throttle window do not
coalesce into exactly one recompute pass. -/
theorem mutation_burst_not_coalesced :
    significantChange childListBatch = true ∧
    mutationPasses [childListBatch, childListBatch] = 2 ∧
    mutationPasses [childListBatch, childListBatch] ≠ 1 := by decide

theorem scrollSignals_pending (selCount n : Nat) (hn : 1 ≤ n) (hc : 0 < selCount) :
    scrollSignals true selCount n = { pending := true, passes := 0 } := by
  induction n with
  | zero => omega
  | succ m ih =>
    cases m with
    | zero => simp [scrollSignals, onWindowScroll, hc]
    | succ k =>
      show onWindowScroll true selCount (scrollSignals true selCount (k + 1))
        = { pending := true, passes := 0 }
      rw [ih (by omega)]
      simp [onWindowScroll]

/-- C6 amended: only the window-scroll path of
`Highlighter.setupEventListeners` coalesces — when the highlighter is
active and the selection non-empty, any `n ≥ 1` window-scroll signals
within one 16 ms throttle window produce exactly 1 recompute pass (the
deferred timeout at the end of the window); mutation signals are not
coalesced: every significant mutation batch produces its own recompute
pass. -/
theorem window_scroll_burst_coalesced (selCount n : Nat)
    (hn : 1 ≤ n) (hc : 0 < selCount) :
    scrollBurstPasses true selCount n = 1 ∧
    ∀ batches : List (List MutationRecordInfo),
      (∀ b ∈ batches, significantChange b = true) →
      mutationPasses batches = batches.length := by
  constructor
  · unfold scrollBurstPasses
    rw [scrollSignals_pending selCount n hn hc]
    rfl
  · intro batches hb
    unfold mutationPasses
    rw [List.filter_eq_self.mpr hb]

theorem window_scroll_burst_coalesced_witness :
    (1 ≤ 10 ∧ 0 < 3) ∧ scrollBurstPasses true 3 10 = 1 :=
  ⟨⟨by decide, by decide⟩,
    (window_scroll_burst_coalesced 3 10 (by decide) (by decide)).1⟩

/-- C7 counterexample: an element whose computed overflow-y is auto but
whose content overflows only horizontally (with overflow-x visible) has
no axis carrying both a scrolling overflow style and overflowing
content, yet the code classifies it as a scroll surface — the claimed
axis-coupled if-and-only-if characterization fails. -/
theorem scrollable_classification_not_axis_coupled :
    isScrollable envMixedOverflow 0 = true ∧
    EventTarget.elem 0
      ∈ (detectScrollContainers envMixedOverflow [0] freshState).scrollContainers ∧
    specAxisCoupledScrollable envMixedOverflow 0 = false := by decide

/-- C7 amended: scroll-surface detection always includes the root view,
and classifies an element as a scroll surface iff its computed
`overflow` or `overflow-y` value is auto or scroll AND its content
exceeds its visible extent on at least one axis — the style axis and the
overflowing axis are not required to coincide, and `overflow-x` is never
consulted. -/
theorem detect_scroll_containers_characterization (env : Env)
    (elems : List Nat) (st : EngineState) :
    EventTarget.window ∈ (detectScrollContainers env elems st).scrollContainers ∧
    ∀ e : Nat,
      (EventTarget.elem e ∈ (detectScrollContainers env elems st).scrollContainers ↔
        e ∈ elems ∧
        ((env e).overflow = "auto" ∨ (env e).overflow = "scroll" ∨
          (env e).overflowY = "auto" ∨ (env e).overflowY = "scroll") ∧
        ((env e).scrollHeight > (env e).clientHeight ∨
          (env e).scrollWidth > (env e).clientWidth)) := by
  have hsc : (detectScrollContainers env elems st).scrollContainers
      = EventTarget.window
        :: (elems.filter (fun x => isScrollable env x)).map EventTarget.elem := rfl
  rw [hsc]
  constructor
  · exact List.mem_cons_self _ _
  · intro e
    have hiff : EventTarget.elem e
        ∈ (elems.filter (fun x => isScrollable env x)).map EventTarget.elem ↔
        e ∈ elems.filter (fun x => isScrollable env x) := by
      constructor
      · intro h
        obtain ⟨a, ha, hae⟩ := List.mem_map.mp h
        have hax : a = e := by injection hae
        exact hax ▸ ha
      · intro h
        exact List.mem_map.mpr ⟨e, h, rfl⟩
    rw [List.mem_cons]
    constructor
    · intro h
      rcases h with h | h
      · exact absurd h (by simp)
      · have he := List.mem_filter.mp (hiff.mp h)
        have hb := he.2
        unfold isScrollable at hb
        simp only [Bool.and_eq_true, decide_eq_true_eq] at hb
        exact ⟨he.1, hb.1, hb.2⟩
    · rintro ⟨hmem, hsty, hext⟩
      right
      apply hiff.mpr
      apply List.mem_filter.mpr
      refine ⟨hmem, ?_⟩
      unfold isScrollable
      rw [decide_eq_true hsty, decide_eq_true hext]
      rfl

/-- C8: the claim matches the clear intent of the removal loop of
`detectScrollContainers`, but the code passes a freshly created
`this.updateAllIndicatorPositions.bind(this)` function to
`removeEventListener`, which therefore never matches the listener that
was actually registered (itself a distinct freshly bound function).  An
element that leaves the surface set keeps its scroll listener: after a
second detection pass in which element 0 is no longer scrollable,
element 0 is outside the surface set yet its listener from the first
pass is still registered. -/
theorem stale_scroll_listener_survives_redetect :
    redetectState1.scrollContainers = [EventTarget.window, EventTarget.elem 0] ∧
    (EventTarget.elem 0, 0) ∈ redetectState1.listeners ∧
    redetectState2.scrollContainers = [EventTarget.window] ∧
    (EventTarget.elem 0, 0) ∈ redetectState2.listeners ∧
    EventTarget.elem 0 ∉ redetectState2.scrollContainers := by decide
